import Mathlib

set_option maxRecDepth 40000

/-!
Shallow embedding of the core of `ai_trade_bot.py` (the autonomous
polling-decision loop of the AI crypto trading bot), together with
theorems settling the frozen claims about its specification.

Modelling conventions:
* Python floats are modelled as rationals (`ℚ`); the numeric values the
  claims evaluate are exactly representable short decimals, on which the
  rational model and IEEE doubles agree for every formatting operation used.
* Fallible Python code (code that can raise) is modelled with `Except Err`;
  code that swallows exceptions returns `Option` or a default.
* Network and clock effects are passed in as explicit oracle values: each
  oracle field stands for the outcome of one outbound call of the cycle.
* Numeric string formatting is implemented on the rational's numerator and
  denominator directly, so every definition evaluates by kernel reduction.
-/

namespace AiTradeBot

/-- Errors raised by the embedded Python code: `valueError` models
`raise ValueError(...)` (the unknown-symbol failure), `upstream` models
network/HTTP/JSON-parse failures from a data provider, and `indexError`
models an out-of-range subscript such as `[0]` on an empty list. -/
inductive Err where
  | valueError (msg : String)
  | upstream
  | indexError
  deriving DecidableEq, Repr

/-- Whether an `Except` computation succeeded. -/
def exOk {ε α : Type} : Except ε α → Bool
  | .ok _ => true
  | .error _ => false

/-- Decidable equality for `Except`, so results evaluate with `decide`. -/
instance instDecEqExcept {ε α : Type} [DecidableEq ε] [DecidableEq α] :
    DecidableEq (Except ε α)
  | .error e, .error f =>
      if h : e = f then .isTrue (h ▸ rfl) else .isFalse (fun hh => h (Except.error.inj hh))
  | .error _, .ok _ => .isFalse (fun hh => Except.noConfusion hh)
  | .ok _, .error _ => .isFalse (fun hh => Except.noConfusion hh)
  | .ok a, .ok b =>
      if h : a = b then .isTrue (h ▸ rfl) else .isFalse (fun hh => h (Except.ok.inj hh))

/-- Helper for `pySplit`: walk the characters, accumulating the current
token (reversed); whitespace ends a token, empty tokens are dropped. -/
def splitWsAux : List Char → List Char → List String
  | [], acc => if acc = [] then [] else [String.mk acc.reverse]
  | c :: cs, acc =>
      if c.isWhitespace then
        if acc = [] then splitWsAux cs [] else String.mk acc.reverse :: splitWsAux cs []
      else splitWsAux cs (c :: acc)

/-- Python `str.split()` with no argument: split on runs of whitespace,
discarding empty pieces. -/
def pySplit (s : String) : List String :=
  splitWsAux s.data []

/-- Python `str.strip()`: drop leading and trailing whitespace. -/
def pyStrip (s : String) : String :=
  String.mk (((s.data.dropWhile Char.isWhitespace).reverse.dropWhile Char.isWhitespace).reverse)

/-- Python `str.upper()` (ASCII case mapping suffices for the strings used). -/
def pyUpper (s : String) : String :=
  String.mk (s.data.map Char.toUpper)

/-- Join a list of strings with a separator (Python `sep.join(...)`). -/
def joinSep (sep : String) : List String → String
  | [] => ""
  | [x] => x
  | x :: y :: xs => x ++ sep ++ joinSep sep (y :: xs)

/-- Whether `t` is a suffix of `s`, by characters. -/
def strEndsWith (s t : String) : Bool :=
  s.data.reverse.take t.data.length = t.data.reverse

/-- Split a string at newline characters (the lines of the request text). -/
def splitNlAux : List Char → List Char → List String
  | [], acc => [String.mk acc.reverse]
  | c :: cs, acc =>
      if c = '\n' then String.mk acc.reverse :: splitNlAux cs []
      else splitNlAux cs (c :: acc)

/-- The lines of a string, split at newlines. -/
def linesOf (s : String) : List String :=
  splitNlAux s.data []

/-- Left-pad the decimal rendering of `n` with zeros to `k` digits,
as needed by fixed-point float formatting. -/
def padZeros (k : ℕ) (n : ℕ) : String :=
  let s := toString n
  String.mk (List.replicate (k - s.length) '0') ++ s

/-- Python `f"{x:.6f}"`: the value rounded (half-even, the rounding of
Python's fixed-point formatting, symmetric in the sign) to six decimal
places and rendered with exactly six fractional digits. Computed on the
numerator and denominator: `m` is `|q|·10^6` rounded to an integer. -/
def formatSix (q : ℚ) : String :=
  let d := q.den
  let n := q.num.natAbs * 1000000
  let quot := n / d
  let rem := n % d
  let m := if 2 * rem < d then quot
           else if d < 2 * rem then quot + 1
           else if quot % 2 = 0 then quot else quot + 1
  (if q.num < 0 then "-" else "") ++ toString (m / 1000000) ++ "." ++ padZeros 6 (m % 1000000)

/-- Python `str` of a float, modelled for values whose shortest round-trip
representation is an exact short decimal (every value the claims use):
render the rational with the fewest fractional digits that make it exact.
An integral value renders as `"n.0"`, as Python does for floats. The final
case (denominator dividing no `10^k`, `k < 30`) cannot arise from the short
decimals under study and falls back to a fraction rendering. -/
def strQ (q : ℚ) : String :=
  let sign := if q.num < 0 then "-" else ""
  match (List.range 30).find? (fun k => 10 ^ k % q.den = 0) with
  | some 0 => sign ++ toString q.num.natAbs ++ ".0"
  | some (k + 1) =>
      let n := q.num.natAbs * (10 ^ (k + 1) / q.den)
      sign ++ toString (n / 10 ^ (k + 1)) ++ "." ++ padZeros (k + 1) (n % 10 ^ (k + 1))
  | none => sign ++ toString q.num.natAbs ++ "/" ++ toString q.den

/-- The literal placeholder that `GROQ_API_KEY` defaults to in the source. -/
def placeholderKey : String := "YOUR_GROQ_API_KEY_HERE"

/-- The credential pre-check of `groq_decision`
(`if not GROQ_API_KEY or GROQ_API_KEY == "YOUR_GROQ_API_KEY_HERE"`):
a key is missing when it is empty (Python falsy) or the placeholder. -/
def keyMissing (key : String) : Bool :=
  key = "" || key = placeholderKey

/-- The request text built inside `groq_decision` (lines 99-107 of the
source): the headlines block, the current-price line, the forecast line
(six decimal places or `"N/A"`), the recent-prices line, and the fixed
instruction sentence. -/
def buildPrompt (news : List String) (price : ℚ) (prediction : Option ℚ)
    (recent : List ℚ) (coin vs : String) : String :=
  let pred_text := match prediction with
    | some p => formatSix p
    | none => "N/A"
  let recent_line := joinSep ", " (recent.map formatSix)
  "News Headlines:\n" ++ joinSep "\n" (news.map (fun h => "- " ++ h)) ++ "\n\n" ++
  "Current Price " ++ coin ++ "/" ++ vs ++ ": " ++ strQ price ++ "\n" ++
  "7‑day Forecast: " ++ pred_text ++ "\n" ++
  "Recent Hourly Prices: " ++ recent_line ++ "\n\n" ++
  "Respond with BUY, SELL, or HOLD (one word)."

/-- The literal diagnostic string returned as the raw response when the
credential is missing. -/
def keyMissingDiag : String := "Groq key missing — default HOLD"

/-- The Decision Engine `groq_decision` (source lines 96-118). Returns
`(decision, prompt_sent, raw_ai_response)`. `netReply` is the oracle for
the one outbound call `client.chat.completions.create(...)`: it is consulted
only when a credential is configured. With a missing key the function
short-circuits to HOLD; otherwise the reply is stripped and the decision is
the first whitespace-delimited token upper-cased — subscripting `[0]` on the
empty token list of a whitespace-only reply raises `IndexError`. -/
def groq_decision (key : String) (netReply : Except Err String)
    (news : List String) (price : ℚ) (prediction : Option ℚ)
    (recent : List ℚ) (coin vs : String) : Except Err (String × String × String) :=
  let prompt := buildPrompt news price prediction recent coin vs
  if keyMissing key then
    .ok ("HOLD", prompt, keyMissingDiag)
  else
    match netReply with
    | .error e => .error e
    | .ok raw =>
        let ai_raw := pyStrip raw
        match pySplit ai_raw with
        | [] => .error .indexError
        | t :: _ => .ok (pyUpper t, prompt, ai_raw)

/-- Python `str.lower()` (ASCII case mapping suffices for the strings used). -/
def pyLower (s : String) : String :=
  String.mk (s.data.map Char.toLower)

/-- Python slice `xs[:n]` for an `int` slice bound: a nonnegative bound takes
the first `n` elements; a negative bound drops the last `|n|` elements
(truncated subtraction gives `max 0 (len + n)`). -/
def pySliceTo {α : Type} (n : ℤ) (xs : List α) : List α :=
  if 0 ≤ n then xs.take n.toNat else xs.take (xs.length - n.natAbs)

/-- Python slice `xs[-n:]` for positive `n`: the last `min n (len)` elements. -/
def pySliceLast {α : Type} (n : ℕ) (xs : List α) : List α :=
  xs.drop (xs.length - n)

/-- The CoinGecko simple-price URL built by `get_price` (source line 69). -/
def priceUrl (cid vs : String) : String :=
  "https://api.coingecko.com/api/v3/simple/price?ids=" ++ cid ++ "&vs_currencies=" ++ pyLower vs

/-- The CoinGecko market-chart URL built by `get_history` (source lines 43-45, 75). -/
def chartUrl (cid vs : String) (days : ℕ) : String :=
  "https://api.coingecko.com/api/v3/coins/" ++ cid ++ "/market_chart?vs_currency=" ++ vs ++
    "&days=" ++ toString days ++ "&interval=hourly"

/-- The Market Data Gateway `get_price` (source lines 65-70). `symbolMap` is
the process-wide `SYMBOL_MAP`; `fetch` is the oracle for the outbound
request keyed by the URL it is sent to, its result the parsed float (network
and parse failures fold into its `Err`). An unresolvable symbol — or one
mapped to an empty id, also falsy in Python — raises
`ValueError(f"Unknown symbol {sym}")` before any request is made. -/
def get_price (symbolMap : String → Option String) (fetch : String → Except Err ℚ)
    (sym vs : String) : Except Err ℚ :=
  match symbolMap (pyUpper sym) with
  | none => .error (.valueError ("Unknown symbol " ++ sym))
  | some cid =>
      if cid = "" then .error (.valueError ("Unknown symbol " ++ sym))
      else fetch (priceUrl cid vs)

/-- The Market Data Gateway `get_history` (source lines 73-77). Unlike
`get_price` it performs no check on the looked-up id: an unresolved symbol
leaves `cid = None`, which the f-string interpolates as the text `"None"`,
and the upstream request is issued anyway. `fetch` is the oracle for the
outbound request; `data.get("prices", [])` and the per-point conversions
fold into it. -/
def get_history (symbolMap : String → Option String)
    (fetch : String → Except Err (List (ℤ × ℚ)))
    (sym vs : String) (days : ℕ) : Except Err (List (ℤ × ℚ)) :=
  let cid := match symbolMap (pyUpper sym) with
    | some c => c
    | none => "None"
  fetch (chartUrl cid (pyLower vs) days)

/-- The forecast gateway `get_prediction` (source lines 80-90). The whole
body is a `try` whose `except Exception: return None`: `predFetch` is the
oracle for the CoinCodex request including the extraction of
`j["predictions"]["price_prediction_7d"]` (a missing field is a `KeyError`
folded into its `Err`); `priceVs` and `priceUsd` are the oracles for the two
`get_price` conversions used when the quote currency is not USD. A zero USD
price is checked explicitly (`if cur_usd else None`), avoiding the division;
every failure path yields `none`, never an error. -/
def get_prediction (predFetch : Except Err ℚ) (priceVs priceUsd : Except Err ℚ)
    (vs : String) : Option ℚ :=
  match predFetch with
  | .error _ => none
  | .ok pred_usd =>
      if pyUpper vs = "USD" then some pred_usd
      else
        match priceVs with
        | .error _ => none
        | .ok cur_vs =>
            match priceUsd with
            | .error _ => none
            | .ok cur_usd =>
                if cur_usd ≠ 0 then some (pred_usd / cur_usd * cur_vs) else none

/-- One entry of the parsed RSS feed, as used by `latest_news`: only the
title is read. -/
structure FeedEntry where
  title : String
  deriving DecidableEq, Repr

/-- The News Gateway `latest_news` (source lines 272-273):
`[e.title for e in feedparser.parse(COINDESK_RSS).entries[:limit]]`.
`feedEntries` models `feedparser.parse(COINDESK_RSS).entries`: feedparser
does not raise on fetch or parse failure — it returns a result whose
`entries` list is empty, so on failure this function is applied to `[]`.
The slice bound is a Python `int` and follows Python slice semantics. -/
def latest_news (feedEntries : List FeedEntry) (limit : ℤ) : List String :=
  (pySliceTo limit feedEntries).map (fun e => e.title)

/-- A published snapshot dict (`self._snap`). Every field is optional,
mirroring the presence of dict keys: the initial `self._snap = {}` has all
fields `none`; a publish builds a fresh dict with every field except
`status` present; `configure` adds the `status` key to whatever dict is
current. Structural equality is Python dict equality on these key sets. -/
structure Snap where
  time : Option String := none
  coin : Option String := none
  vs : Option String := none
  price : Option ℚ := none
  prediction : Option (Option ℚ) := none
  decision : Option String := none
  prompt : Option String := none
  ai_raw : Option String := none
  interval : Option ℤ := none
  news : Option (List String) := none
  status : Option String := none
  deriving DecidableEq, Repr

/-- The mutable state of `TradingBot`: configuration (`coin`, `vs`,
`interval`), the current snapshot dict and the in-memory log. The log file
name and the lock have no bearing on the state transitions modelled here
(`save_log` catches its own exceptions and mutates nothing). -/
structure BotState where
  coin : String
  vs : String
  interval : ℤ
  snap : Snap
  log : List Snap
  deriving DecidableEq, Repr

/-- The `TradingBot.__init__` state (source lines 127-134): configuration
upper-cased, the snapshot the empty dict, the log empty. The constructor
does not clamp the interval. -/
def initBot (coin vs : String) (interval : ℤ) : BotState :=
  { coin := pyUpper coin, vs := pyUpper vs, interval := interval,
    snap := {}, log := [] }

/-- The bot constructed with the source's default arguments
(`TradingBot()` at line 191). -/
def defaultBot : BotState := initBot "XRP" "USD" 60

/-- The oracle for one cycle of the trading loop: the outcome of each
outbound effect the cycle performs, in program order. `now` models
`datetime.utcnow().isoformat() + "Z"`. -/
structure Oracle where
  price : Except Err ℚ
  hist : Except Err (List (ℤ × ℚ))
  feed : List FeedEntry
  predFetch : Except Err ℚ
  predPriceVs : Except Err ℚ
  predPriceUsd : Except Err ℚ
  groqReply : Except Err String
  now : String
  deriving Repr

/-- One iteration of `TradingBot.run`'s `while True` loop (source lines
144-173), returning the state after the iteration and the number of seconds
the final `time.sleep(max(5, self.interval))` sleeps. The `try` block runs
the steps in order; the first raised error transfers to the `except` branch,
which only prints, leaving the state unchanged; the sleep always runs.
Publishing replaces `self._snap` with a fresh dict (no `status` key) and
appends a copy of it to the log; `save_log` mutates no state. -/
def runCycle (key : String) (st : BotState) (o : Oracle) : BotState × ℤ :=
  let slept := max 5 st.interval
  match o.price with
  | .error _ => (st, slept)
  | .ok price =>
      match o.hist with
      | .error _ => (st, slept)
      | .ok histFull =>
          let hist := pySliceLast 6 histFull
          let news := latest_news o.feed 5
          let pred := get_prediction o.predFetch o.predPriceVs o.predPriceUsd st.vs
          let recent_vals := hist.map (fun p => p.2)
          match groq_decision key o.groqReply news price pred recent_vals st.coin st.vs with
          | .error _ => (st, slept)
          | .ok (decision, prompt, ai_raw) =>
              let snap : Snap :=
                { time := some o.now, coin := some st.coin, vs := some st.vs,
                  price := some price, prediction := some pred,
                  decision := some decision, prompt := some prompt,
                  ai_raw := some ai_raw, interval := some st.interval,
                  news := some news, status := none }
              ({ st with snap := snap, log := st.log ++ [snap] }, slept)

/-- Whether the decision step succeeds: with a missing key it always does;
otherwise it needs a successful network reply whose stripped text has at
least one whitespace-delimited token. -/
def groqOk (key : String) (r : Except Err String) : Bool :=
  keyMissing key ||
    (match r with
     | .ok raw => pySplit (pyStrip raw) ≠ []
     | .error _ => false)

/-- Whether the cycle driven by `o` publishes (no step of the `try` block
raises): price and history fetches succeed, and the decision step succeeds. -/
def cycleOk (key : String) (o : Oracle) : Bool :=
  exOk o.price && exOk o.hist && groqOk key o.groqReply

/-- The snapshot dict that a successful cycle publishes (the dict literal of
source lines 155-166); meaningful only when `cycleOk` holds, the default
empty dict otherwise. -/
def pubSnap (key : String) (st : BotState) (o : Oracle) : Snap :=
  match o.price, o.hist with
  | .ok price, .ok histFull =>
      let hist := pySliceLast 6 histFull
      let news := latest_news o.feed 5
      let pred := get_prediction o.predFetch o.predPriceVs o.predPriceUsd st.vs
      let recent_vals := hist.map (fun p => p.2)
      match groq_decision key o.groqReply news price pred recent_vals st.coin st.vs with
      | .ok (decision, prompt, ai_raw) =>
          { time := some o.now, coin := some st.coin, vs := some st.vs,
            price := some price, prediction := some pred,
            decision := some decision, prompt := some prompt,
            ai_raw := some ai_raw, interval := some st.interval,
            news := some news, status := none }
      | .error _ => {}
  | _, _ => {}

/-- Run the loop through a list of cycle oracles, threading the state. -/
def runCycles (key : String) (st : BotState) : List Oracle → BotState
  | [] => st
  | o :: os => runCycles key (runCycle key st o).1 os

/-- The `TradingBot.configure` operation (source lines 180-183): under the
lock, upper-case and store the pair, clamp the interval to at least 5, and
set the `status` key of the current snapshot dict in place (the log is not
touched). -/
def configure (st : BotState) (coin vs : String) (interval : ℤ) : BotState :=
  { st with
    coin := pyUpper coin, vs := pyUpper vs, interval := max 5 interval,
    snap := { st.snap with status := some "reconfigured" } }

/-- Events of an operation relevant to the locking discipline: lock
acquisition and release (`with self.lock` / `with bot.lock`), outbound
network calls, the log-file write, reads and writes of the shared state,
and the sleep. -/
inductive Ev where
  | acquire
  | release
  | netCall
  | fileWrite
  | stateRead
  | stateWrite
  | sleepEv
  deriving DecidableEq, Repr

/-- The events of an operation that occur while the lock is held (strictly
between an `acquire` and its `release`), tracked with a depth counter. -/
def lockedEvsAux : List Ev → ℕ → List Ev
  | [], _ => []
  | .acquire :: es, d => lockedEvsAux es (d + 1)
  | .release :: es, d => lockedEvsAux es (d - 1)
  | _ :: es, 0 => lockedEvsAux es 0
  | e :: es, d + 1 => e :: lockedEvsAux es (d + 1)

/-- Events occurring while the lock is held. -/
def lockedEvs (t : List Ev) : List Ev :=
  lockedEvsAux t 0

/-- Whether the operation performs a network call while holding the lock. -/
def netWhileLocked (t : List Ev) : Bool :=
  (lockedEvs t).any (fun e => e = .netCall)

/-- The event trace of one iteration of `TradingBot.run` (source lines
144-173), read off the source in program order: the configuration is read
WITHOUT the lock (lines 147-150 access `self.coin`/`self.vs` directly), the
four gateway calls (price, history, news, forecast) run unlocked, the Groq
call — present only when a credential is configured — runs unlocked, then
`with self.lock` encloses the snapshot/log update and the `save_log` file
write, and the sleep runs after the lock is released. -/
def workerCycleTrace (groqCalled : Bool) : List Ev :=
  [.netCall, .netCall, .netCall, .netCall] ++
    (if groqCalled then [.netCall] else []) ++
    [.acquire, .stateWrite, .fileWrite, .release, .sleepEv]

/-- The event trace of `TradingBot.snapshot` (source lines 176-178), the
reader used by `/api/latest`: lock, copy the snapshot dict, unlock. -/
def snapshotTrace : List Ev :=
  [.acquire, .stateRead, .release]

/-- The event trace of the `/api/log` handler (source lines 289-292):
lock, serialize the log, unlock. -/
def apiLogTrace : List Ev :=
  [.acquire, .stateRead, .release]

/-- The event trace of the `/api/history` handler (source lines 294-299):
it reads `bot.coin`/`bot.vs` and calls `get_history` — an outbound network
request — INSIDE `with bot.lock`. -/
def apiHistoryTrace : List Ev :=
  [.acquire, .stateRead, .netCall, .release]

/-- Concrete rational 0.50, in lowest terms. -/
def q050 : ℚ := ⟨1, 2, by norm_num, by norm_num⟩

/-- Concrete rational 0.51, in lowest terms. -/
def q051 : ℚ := ⟨51, 100, by norm_num, by norm_num⟩

/-- Concrete rational 0.52, in lowest terms. -/
def q052 : ℚ := ⟨13, 25, by norm_num, by norm_num⟩

/-- Concrete rational 0.523, in lowest terms. -/
def q0523 : ℚ := ⟨523, 1000, by norm_num, by norm_num⟩

/-- Concrete rational 0.55, in lowest terms. -/
def q055 : ℚ := ⟨11, 20, by norm_num, by norm_num⟩

/-- The request text of the concrete scenario of the claims: headlines
`["A", "B"]`, price 0.523, forecast 0.55, recent prices
`[0.50, 0.51, 0.52]`, pair XRP/USD. -/
def scenarioPrompt : String :=
  buildPrompt ["A", "B"] q0523 (some q055) [q050, q051, q052] "XRP" "USD"

/-- A symbol map containing only XRP, for concrete counterexamples. -/
def smallMap : String → Option String :=
  fun s => if s = "XRP" then some "ripple" else none

/-- A three-entry feed, for concrete counterexamples. -/
def feed3 : List FeedEntry :=
  [⟨"a"⟩, ⟨"b"⟩, ⟨"c"⟩]

/-- A cycle oracle where every consulted call succeeds (the forecast
oracles fail, which `get_prediction` swallows). -/
def okOracle : Oracle :=
  { price := .ok q0523, hist := .ok [(0, q050), (1, q051)], feed := feed3,
    predFetch := .error .upstream, predPriceVs := .error .upstream,
    predPriceUsd := .error .upstream, groqReply := .ok "BUY now", now := "t0" }

/-- A cycle oracle whose price fetch fails. -/
def failOracle : Oracle :=
  { price := .error .upstream, hist := .ok [], feed := [],
    predFetch := .ok q055, predPriceVs := .ok q050, predPriceUsd := .ok q050,
    groqReply := .ok "BUY", now := "t1" }

/-- Success of the decision step depends only on the key and the network
reply, not on the composed request's inputs. -/
theorem groq_exOk (key : String) (r : Except Err String) (news : List String)
    (price : ℚ) (pred : Option ℚ) (recent : List ℚ) (coin vs : String) :
    exOk (groq_decision key r news price pred recent coin vs) = groqOk key r := by
  unfold groq_decision groqOk
  cases hk : keyMissing key with
  | true => simp [exOk]
  | false =>
      cases r with
      | error e => simp [exOk]
      | ok raw =>
          cases hsp : pySplit (pyStrip raw) with
          | nil => simp [hsp, exOk]
          | cons t ts => simp [hsp, exOk]

/-- Characterization of one loop iteration: a cycle either publishes the
snapshot `pubSnap` (replacing the current snapshot and appending the same
dict to the log) or, when some step raises, leaves the state unchanged; the
sleep is always `max 5 interval`. -/
theorem runCycle_eq (key : String) (st : BotState) (o : Oracle) :
    runCycle key st o =
      (if cycleOk key o then
        { st with snap := pubSnap key st o, log := st.log ++ [pubSnap key st o] }
       else st,
       max 5 st.interval) := by
  unfold runCycle pubSnap cycleOk
  cases hp : o.price with
  | error e => simp [exOk]
  | ok price =>
      cases hh : o.hist with
      | error e => simp [exOk]
      | ok histFull =>
          have hg := groq_exOk key o.groqReply (latest_news o.feed 5) price
            (get_prediction o.predFetch o.predPriceVs o.predPriceUsd st.vs)
            ((pySliceLast 6 histFull).map (fun p => p.2)) st.coin st.vs
          cases hgd : groq_decision key o.groqReply (latest_news o.feed 5) price
              (get_prediction o.predFetch o.predPriceVs o.predPriceUsd st.vs)
              ((pySliceLast 6 histFull).map (fun p => p.2)) st.coin st.vs with
          | error e =>
              have hgo : groqOk key o.groqReply = false := by rw [← hg, hgd]; rfl
              simp [hgd, exOk, hgo]
          | ok trip =>
              have hgo : groqOk key o.groqReply = true := by rw [← hg, hgd]; rfl
              obtain ⟨d, pr, ar⟩ := trip
              simp [hgd, exOk, hgo]

/-- The prediction field of a published snapshot is exactly the value
`get_prediction` returned for the cycle. -/
theorem pubSnap_prediction (key : String) (st : BotState) (o : Oracle)
    (h : cycleOk key o = true) :
    (pubSnap key st o).prediction =
      some (get_prediction o.predFetch o.predPriceVs o.predPriceUsd st.vs) := by
  unfold cycleOk at h
  cases hp : o.price with
  | error e => rw [hp] at h; simp [exOk] at h
  | ok price =>
      cases hh : o.hist with
      | error e => rw [hp, hh] at h; simp [exOk] at h
      | ok histFull =>
          have hgo : groqOk key o.groqReply = true := by
            rw [hp, hh] at h; simpa [exOk] using h
          have hg := groq_exOk key o.groqReply (latest_news o.feed 5) price
            (get_prediction o.predFetch o.predPriceVs o.predPriceUsd st.vs)
            ((pySliceLast 6 histFull).map (fun p => p.2)) st.coin st.vs
          rw [hgo] at hg
          unfold pubSnap
          rw [hp, hh]
          cases hgd : groq_decision key o.groqReply (latest_news o.feed 5) price
              (get_prediction o.predFetch o.predPriceVs o.predPriceUsd st.vs)
              ((pySliceLast 6 histFull).map (fun p => p.2)) st.coin st.vs with
          | error e => rw [hgd] at hg; simp [exOk, hgo] at hg
          | ok trip => obtain ⟨d, pr, ar⟩ := trip; simp [hgd]

/-- Invariant preservation along a run: from a state whose log is empty or
ends in the current snapshot, any sequence of cycles adds one log entry per
publishing cycle and keeps the log's last element equal to the current
snapshot. -/
theorem runCycles_inv (key : String) (os : List Oracle) :
    ∀ st : BotState, st.log = [] ∨ st.log.getLast? = some st.snap →
      (runCycles key st os).log.length =
          st.log.length + (os.filter (fun o => cycleOk key o)).length ∧
      ((runCycles key st os).log = [] ∨
        (runCycles key st os).log.getLast? = some (runCycles key st os).snap) := by
  induction os with
  | nil => intro st h; exact ⟨by simp [runCycles], by simpa [runCycles] using h⟩
  | cons o os ih =>
      intro st h
      simp only [runCycles]
      by_cases hc : cycleOk key o = true
      · have hstep : (runCycle key st o).1 =
            { st with
              snap := pubSnap key st o, log := st.log ++ [pubSnap key st o] } := by
          rw [runCycle_eq]; simp [hc]
        rw [hstep]
        obtain ⟨hl, hinv⟩ := ih
          { st with
            snap := pubSnap key st o, log := st.log ++ [pubSnap key st o] }
          (Or.inr (by simp))
        refine ⟨?_, hinv⟩
        rw [hl]
        simp [List.filter_cons, hc]
        omega
      · rw [Bool.not_eq_true] at hc
        have hstep : (runCycle key st o).1 = st := by
          rw [runCycle_eq]; simp [hc]
        rw [hstep]
        obtain ⟨hl, hinv⟩ := ih st h
        refine ⟨?_, hinv⟩
        rw [hl]
        simp [List.filter_cons, hc]

/-- C1 (amended): starting from the freshly constructed bot, after any
sequence of cycles the Log's length equals the number of successful
(publishing) cycles and the Log's last element, if present, equals the
current Snapshot; a reconfigure never changes the Log. The original claim's
"across every operation, including reconfigure" fails: see the
counterexample, where reconfigure adds a `status` key to the current
snapshot dict only, so the Log's last element no longer equals it. -/
theorem C1_log_snapshot_invariant (key : String) (os : List Oracle) :
    (runCycles key defaultBot os).log.length =
        (os.filter (fun o => cycleOk key o)).length ∧
    ((runCycles key defaultBot os).log = [] ∨
      (runCycles key defaultBot os).log.getLast? =
        some (runCycles key defaultBot os).snap) ∧
    (∀ (st : BotState) (c v : String) (i : ℤ), (configure st c v i).log = st.log) := by
  have h := runCycles_inv key os defaultBot (Or.inl rfl)
  exact ⟨by simpa [defaultBot, initBot] using h.1, h.2, fun st c v i => rfl⟩

/-- C1 counterexample: after one successful cycle (Log length 1) a
reconfigure leaves the Log untouched but sets the current snapshot's
`status` key, so the Log's last element no longer equals the current
Snapshot — refuting the claim that the invariant holds across reconfigure. -/
theorem C1_reconfigure_breaks_invariant :
    (configure (runCycle "" defaultBot okOracle).1 "XRP" "USD" 60).log.length = 1 ∧
    (configure (runCycle "" defaultBot okOracle).1 "XRP" "USD" 60).log.getLast? ≠
      some (configure (runCycle "" defaultBot okOracle).1 "XRP" "USD" 60).snap := by
  decide

/-- C2: a cycle in which any step of the `try` block raises (fetch of price
or history, or the decision step) leaves the bot state — in particular the
current Snapshot and the Log — exactly as it was, and the iteration still
ends with the wait step sleeping `max 5 interval`; the loop function is
total, so the loop does not terminate on a caught failure. -/
theorem C2_failed_cycle_preserves_state (key : String) (st : BotState) (o : Oracle)
    (h : cycleOk key o = false) :
    (runCycle key st o).1.snap = st.snap ∧
    (runCycle key st o).1.log.length = st.log.length ∧
    runCycle key st o = (st, max 5 st.interval) := by
  rw [runCycle_eq]
  simp [h]

/-- C2 witness: the concrete failing-price oracle leaves the default bot
unchanged and sleeps 60 seconds. -/
theorem C2_failed_cycle_preserves_state_witness :
    cycleOk "credential" failOracle = false ∧
    runCycle "credential" defaultBot failOracle = (defaultBot, max 5 defaultBot.interval) :=
  ⟨by decide,
   (C2_failed_cycle_preserves_state "credential" defaultBot failOracle (by decide)).2.2⟩

/-- C3: with no valid credential configured, `groq_decision` returns
`HOLD` together with the composed request text and the literal diagnostic
string as the raw response, for every input; and its result does not depend
on the network oracle — no network call is performed. -/
theorem C3_no_credential_hold (key : String) (r r' : Except Err String)
    (news : List String) (price : ℚ) (pred : Option ℚ) (recent : List ℚ)
    (coin vs : String) (h : keyMissing key = true) :
    groq_decision key r news price pred recent coin vs =
      .ok ("HOLD", buildPrompt news price pred recent coin vs, keyMissingDiag) ∧
    groq_decision key r news price pred recent coin vs =
      groq_decision key r' news price pred recent coin vs := by
  unfold groq_decision
  simp [h]

/-- C3 witness: with the placeholder key, a concrete call returns HOLD with
the diagnostic string, identically for a successful and a failed network
oracle. -/
theorem C3_no_credential_hold_witness :
    keyMissing placeholderKey = true ∧
    (groq_decision placeholderKey (.ok "SELL") ["A"] q0523 (some q055) [q050] "XRP" "USD" =
        .ok ("HOLD", buildPrompt ["A"] q0523 (some q055) [q050] "XRP" "USD", keyMissingDiag) ∧
     groq_decision placeholderKey (.ok "SELL") ["A"] q0523 (some q055) [q050] "XRP" "USD" =
        groq_decision placeholderKey (.error .upstream) ["A"] q0523 (some q055) [q050] "XRP" "USD") :=
  ⟨by decide,
   C3_no_credential_hold placeholderKey (.ok "SELL") (.error .upstream) ["A"] q0523
     (some q055) [q050] "XRP" "USD" (by decide)⟩

/-- C4: request-text composition is a pure function — byte-identical output
for identical inputs — and on the concrete scenario (price 0.523, forecast
0.55, recent prices 0.50/0.51/0.52, headlines A and B, pair XRP/USD) the
text contains the line `Current Price XRP/USD: 0.523`, the line
`7‑day Forecast: 0.550000`, the comma-joined six-decimal recent prices, and
ends with the fixed instruction sentence; an absent forecast renders as the
literal token `N/A`. -/
theorem C4_request_text (hs : List String) (p : ℚ) (f : Option ℚ) (r : List ℚ)
    (c v : String) (hs' : List String) (p' : ℚ) (f' : Option ℚ) (r' : List ℚ)
    (c' v' : String) (h1 : hs = hs') (h2 : p = p') (h3 : f = f') (h4 : r = r')
    (h5 : c = c') (h6 : v = v') :
    buildPrompt hs p f r c v = buildPrompt hs' p' f' r' c' v' ∧
    "Current Price XRP/USD: 0.523" ∈ linesOf scenarioPrompt ∧
    "7‑day Forecast: 0.550000" ∈ linesOf scenarioPrompt ∧
    "Recent Hourly Prices: 0.500000, 0.510000, 0.520000" ∈ linesOf scenarioPrompt ∧
    "7‑day Forecast: N/A" ∈
      linesOf (buildPrompt ["A", "B"] q0523 none [q050, q051, q052] "XRP" "USD") ∧
    strEndsWith scenarioPrompt "Respond with BUY, SELL, or HOLD (one word)." = true := by
  subst h1 h2 h3 h4 h5 h6
  exact ⟨rfl, by decide, by decide, by decide, by decide, by decide⟩

/-- C4 witness: the determinism component applied at the scenario inputs. -/
theorem C4_request_text_witness :
    buildPrompt ["A", "B"] q0523 (some q055) [q050, q051, q052] "XRP" "USD" =
      buildPrompt ["A", "B"] q0523 (some q055) [q050, q051, q052] "XRP" "USD" :=
  (C4_request_text ["A", "B"] q0523 (some q055) [q050, q051, q052] "XRP" "USD"
    ["A", "B"] q0523 (some q055) [q050, q051, q052] "XRP" "USD"
    rfl rfl rfl rfl rfl rfl).1

/-- C5: `get_prediction` never raises — every failure yields the absent
value: a failed forecast fetch (including a missing prediction field), a
failed currency-conversion fetch in either leg, and a zero USD price (the
zero-division guard) all give `none`; and a publishing cycle whose forecast
fetch failed still publishes a Snapshot whose prediction field is present
and absent-valued, growing the Log by one. -/
theorem C5_forecast_absent_on_failure :
    (∀ (e : Err) (pvs pusd : Except Err ℚ) (vs : String),
       get_prediction (.error e) pvs pusd vs = none) ∧
    (∀ (p : ℚ) (e : Err) (pusd : Except Err ℚ) (vs : String), pyUpper vs ≠ "USD" →
       get_prediction (.ok p) (.error e) pusd vs = none) ∧
    (∀ (p cv : ℚ) (e : Err) (vs : String), pyUpper vs ≠ "USD" →
       get_prediction (.ok p) (.ok cv) (.error e) vs = none) ∧
    (∀ (p cv : ℚ) (vs : String), pyUpper vs ≠ "USD" →
       get_prediction (.ok p) (.ok cv) (.ok 0) vs = none) ∧
    (∀ (key : String) (st : BotState) (o : Oracle) (e : Err),
       cycleOk key o = true → o.predFetch = .error e →
       (runCycle key st o).1.snap.prediction = some none ∧
       (runCycle key st o).1.log.length = st.log.length + 1) := by
  refine ⟨fun e pvs pusd vs => rfl, ?_, ?_, ?_, ?_⟩
  · intro p e pusd vs h
    simp [get_prediction, h]
  · intro p cv e vs h
    simp [get_prediction, h]
  · intro p cv vs h
    simp [get_prediction, h]
  · intro key st o e hok hpf
    rw [runCycle_eq]
    simp only [hok, if_true]
    refine ⟨?_, by simp⟩
    rw [pubSnap_prediction key st o hok, hpf]
    rfl

/-- C5 witness: the zero-division guard at concrete inputs, and the
concrete publishing cycle with a failed forecast fetch. -/
theorem C5_forecast_absent_on_failure_witness :
    (pyUpper "eur" ≠ "USD" ∧ get_prediction (.ok q055) (.ok q050) (.ok 0) "eur" = none) ∧
    (cycleOk "" okOracle = true ∧ okOracle.predFetch = .error .upstream ∧
     (runCycle "" defaultBot okOracle).1.snap.prediction = some none ∧
     (runCycle "" defaultBot okOracle).1.log.length = defaultBot.log.length + 1) :=
  ⟨⟨by decide, C5_forecast_absent_on_failure.2.2.2.1 q055 q050 "eur" (by decide)⟩,
   by decide, by decide,
   (C5_forecast_absent_on_failure.2.2.2.2 "" defaultBot okOracle .upstream
     (by decide) (by decide)).1,
   (C5_forecast_absent_on_failure.2.2.2.2 "" defaultBot okOracle .upstream
     (by decide) (by decide)).2⟩

/-- C6 (amended): for a symbol the mapping cannot resolve, `get_price`
fails with the unknown-symbol `ValueError`; `get_history` does NOT share
this failure mode — it performs no check, interpolates the unresolved id as
the text `"None"` into the chart URL, and returns whatever the upstream
request yields. -/
theorem C6_unknown_symbol (map : String → Option String)
    (fetchP : String → Except Err ℚ) (fetchH : String → Except Err (List (ℤ × ℚ)))
    (sym vs : String) (days : ℕ) (h : map (pyUpper sym) = none) :
    get_price map fetchP sym vs = .error (.valueError ("Unknown symbol " ++ sym)) ∧
    get_history map fetchH sym vs days = fetchH (chartUrl "None" (pyLower vs) days) := by
  unfold get_price get_history
  rw [h]
  exact ⟨rfl, rfl⟩

/-- C6 witness: the amended statement at the concrete one-symbol map and
the unresolvable symbol FOO. -/
theorem C6_unknown_symbol_witness :
    smallMap (pyUpper "FOO") = none ∧
    (get_price smallMap (fun _ => .ok q050) "FOO" "USD" =
        .error (.valueError "Unknown symbol FOO") ∧
     get_history smallMap (fun _ => .ok [(0, q050)]) "FOO" "USD" 1 =
        (fun _ => (.ok [(0, q050)] : Except Err (List (ℤ × ℚ))))
          (chartUrl "None" (pyLower "USD") 1)) :=
  ⟨by decide,
   C6_unknown_symbol smallMap (fun _ => .ok q050) (fun _ => .ok [(0, q050)])
     "FOO" "USD" 1 (by decide)⟩

/-- C6 counterexample: for the unresolvable symbol FOO, `get_price` raises
the unknown-symbol error but `get_history` succeeds (the upstream oracle's
value is returned), refuting "recentHistory has the same failure modes". -/
theorem C6_history_no_unknown_symbol :
    get_price smallMap (fun _ => .ok q050) "FOO" "USD" =
      .error (.valueError "Unknown symbol FOO") ∧
    get_history smallMap (fun _ => .ok [(0, q050)]) "FOO" "USD" 1 = .ok [(0, q050)] ∧
    exOk (get_history smallMap (fun _ => .ok [(0, q050)]) "FOO" "USD" 1) = true := by
  decide

/-- C7: every reconfigure stores an interval of at least 5 (exactly
`max 5 i`), and the wait step of every cycle sleeps `max 5 interval`
seconds — in particular at least 5 seconds after any reconfigure. -/
theorem C7_interval_clamp (st : BotState) (c v : String) (i : ℤ)
    (key : String) (o : Oracle) :
    5 ≤ (configure st c v i).interval ∧
    (configure st c v i).interval = max 5 i ∧
    (runCycle key st o).2 = max 5 st.interval ∧
    5 ≤ (runCycle key (configure st c v i) o).2 := by
  refine ⟨le_max_left 5 i, rfl, ?_, ?_⟩
  · rw [runCycle_eq]
  · rw [runCycle_eq]
    exact le_max_left 5 (configure st c v i).interval

/-- C8 (amended): for every nonnegative limit, `latest_news` returns the
titles of the first `limit` feed entries in feed order (most-recent-first by
the feed contract), so its length is at most the limit; applied to the empty
entry list that feedparser yields on fetch/parse failure, it returns the
empty sequence. The original claim's "for every limit" fails for negative
limits under Python slice semantics: see the counterexample. -/
theorem C8_latest_news_bound (entries : List FeedEntry) (limit : ℤ) (h : 0 ≤ limit) :
    latest_news entries limit = (entries.take limit.toNat).map (fun e => e.title) ∧
    ((latest_news entries limit).length : ℤ) ≤ limit ∧
    latest_news [] limit = [] := by
  unfold latest_news pySliceTo
  rw [if_pos h]
  refine ⟨rfl, ?_, by simp⟩
  have hl : ((entries.take limit.toNat).map (fun e => e.title)).length ≤ limit.toNat := by
    simp [List.length_take]
  omega

/-- C8 witness: the amended statement at a three-entry feed and limit 2. -/
theorem C8_latest_news_bound_witness :
    (0 : ℤ) ≤ 2 ∧
    (latest_news feed3 2 = (feed3.take (2 : ℤ).toNat).map (fun e => e.title) ∧
     ((latest_news feed3 2).length : ℤ) ≤ 2 ∧
     latest_news [] 2 = []) :=
  ⟨by decide, C8_latest_news_bound feed3 2 (by decide)⟩

/-- C8 counterexample: at the negative limit -1 and a three-entry feed,
Python slicing returns the first two titles, whose length 2 is not at most
-1 — refuting the claim for every limit. -/
theorem C8_negative_limit :
    latest_news feed3 (-1) = ["a", "b"] ∧
    ¬ (((latest_news feed3 (-1)).length : ℤ) ≤ -1) := by
  decide

/-- C9 (amended): the worker holds the lock only for the publish step (the
snapshot/log update together with the log-file write) and never across a
network call — it reads the configuration at cycle start without the lock;
the snapshot and log readers hold the lock only for the state copy; but the
history endpoint performs its upstream market-history network call while
holding the lock. -/
theorem C9_locking_discipline :
    netWhileLocked (workerCycleTrace true) = false ∧
    netWhileLocked (workerCycleTrace false) = false ∧
    lockedEvs (workerCycleTrace false) = [.stateWrite, .fileWrite] ∧
    lockedEvs snapshotTrace = [.stateRead] ∧
    lockedEvs apiLogTrace = [.stateRead] ∧
    netWhileLocked apiHistoryTrace = true := by
  decide

/-- C9 counterexample: the `/api/history` reader holds the lock across a
network call (its locked region is a state read followed by the upstream
fetch), refuting "readers acquire the lock only for the duration of a
snapshot/log copy" and "never across network calls". -/
theorem C9_api_history_locks_network :
    netWhileLocked apiHistoryTrace = true ∧
    lockedEvs apiHistoryTrace = [.stateRead, .netCall] := by
  decide

/-- C10: with a credential configured, `groq_decision` returns a decision
only when the stripped reply has at least one whitespace-delimited token —
it is then the first token upper-cased — and for an empty or whitespace-only
reply the `[0]` subscript raises `IndexError` instead of producing a
result. -/
theorem C10_reply_token_precondition (key raw : String) (news : List String)
    (price : ℚ) (pred : Option ℚ) (recent : List ℚ) (coin vs : String)
    (h : keyMissing key = false) :
    (pySplit (pyStrip raw) = [] →
       groq_decision key (.ok raw) news price pred recent coin vs = .error .indexError) ∧
    (∀ t ts, pySplit (pyStrip raw) = t :: ts →
       groq_decision key (.ok raw) news price pred recent coin vs =
         .ok (pyUpper t, buildPrompt news price pred recent coin vs, pyStrip raw)) := by
  constructor
  · intro hsp
    unfold groq_decision
    simp [h, hsp]
  · intro t ts hsp
    unfold groq_decision
    simp [h, hsp]

/-- C10 witness: with a configured key, the whitespace-only reply raises
`IndexError`, and the reply "buy now" yields the upper-cased first token. -/
theorem C10_reply_token_precondition_witness :
    keyMissing "credential" = false ∧
    pySplit (pyStrip " \n ") = [] ∧
    groq_decision "credential" (.ok " \n ") ["A"] q050 none [] "XRP" "USD" =
      .error .indexError ∧
    groq_decision "credential" (.ok " buy now ") ["A"] q050 none [] "XRP" "USD" =
      .ok (pyUpper "buy", buildPrompt ["A"] q050 none [] "XRP" "USD", pyStrip " buy now ") :=
  ⟨by decide, by decide,
   (C10_reply_token_precondition "credential" " \n " ["A"] q050 none [] "XRP" "USD"
     (by decide)).1 (by decide),
   (C10_reply_token_precondition "credential" " buy now " ["A"] q050 none [] "XRP" "USD"
     (by decide)).2 "buy" ["now"] (by decide)⟩

end AiTradeBot
